import Mathlib

/-!
Shallow embedding of `src/main.cpp` (tccmobile/CPPExceptionHandling).

The program has two components:
* `CustomResourceException` (the spec's ChainedError): a `std::runtime_error`
  subclass carrying a message and an optional nested exception stored through
  `std::shared_ptr<std::exception>`.
* `Resource` (the spec's ManagedResource): a move-only RAII class with a
  `name_ : std::string` and an `is_open_ : bool`, whose destructor calls
  `close()` and catches any `CustomResourceException` it throws.

Exceptions are modelled as values of the inductive `CppExc`; a method that can
throw returns the updated object together with the list of lines it printed to
`std::cout` and an `Option CppExc` (`some e` means the method exits by
throwing `e`, after having produced the state update and output recorded in
the other components).
-/

/-- Model of the C++ exception objects that occur in the program, tagged by
their dynamic type: a `std::runtime_error` carrying a message, a plain
`std::exception` (the base class, which stores no message of its own), and a
`CustomResourceException` carrying its `runtime_error` message plus the
optional nested exception stored in `nested_ptr_`. -/
inductive CppExc where
  | stdRuntimeError (msg : String) : CppExc
  | stdException : CppExc
  | customResource (msg : String) (nestedExc : Option CppExc) : CppExc

/-- Virtual dispatch of `what()` on the dynamic type of the exception.
`std::runtime_error::what()` returns the construction message, and
`CustomResourceException` inherits that behaviour through its
`std::runtime_error(message)` base initialisation. For the plain base class,
`std::exception::what()` returns an implementation-defined string that does not
depend on any derived object the base was copied from; both Itanium-ABI
standard libraries (libstdc++ and libc++) return the literal
"std::exception". -/
def CppExc.what : CppExc → String
  | .stdRuntimeError m => m
  | .stdException => "std::exception"
  | .customResource m _ => m

/-- Copy-construction of a `std::exception` from a `const std::exception&`
(this is what `std::make_shared<std::exception>(nested)` on src/main.cpp line
13 performs). The static type of the argument is the base class, so only the
`std::exception` base subobject is copied: the derived part, including any
message stored by `std::runtime_error`, is sliced away, and the resulting
object has dynamic type `std::exception`. -/
def sliceToStdException (e : CppExc) : CppExc :=
  match e with
  | _ => CppExc.stdException

/-- One-argument constructor `CustomResourceException(message)`:
`nested_ptr_` is null. -/
def CustomResourceException.make (message : String) : CppExc :=
  .customResource message none

/-- Two-argument constructor `CustomResourceException(message, nested)`
(src/main.cpp lines 12-13): stores
`std::make_shared<std::exception>(nested)`, i.e. a sliced copy of `nested`. -/
def CustomResourceException.makeWithNested (message : String) (nestedArg : CppExc) : CppExc :=
  .customResource message (some (sliceToStdException nestedArg))

/-- Accessor `nested()` (src/main.cpp lines 15-17): the stored nested
exception, or none when `nested_ptr_` is null or the exception is not a
`CustomResourceException`. -/
def CppExc.nested : CppExc → Option CppExc
  | .customResource _ n => n
  | _ => none

/-- The function `demonstrateNestedExceptions` (src/main.cpp lines 84-90):
throws `std::runtime_error("Original error")`, catches it as
`const std::exception& e`, and throws
`CustomResourceException("Wrapper error", e)`. The value below is the
exception that propagates out of the function. -/
def demonstrateNestedExceptions : CppExc :=
  CustomResourceException.makeWithNested "Wrapper error" (.stdRuntimeError "Original error")

/-- The `Resource` class data members (src/main.cpp lines 78-80):
`name_ : std::string` and `is_open_ : bool`. -/
structure Resource where
  name : String
  is_open : Bool
deriving DecidableEq, Repr

/-- Constructor `Resource(std::string name)` (src/main.cpp lines 26-28): sets
`is_open_` to true and prints the "opened" line. Returns the new object and
its output. -/
def Resource.create (name : String) : Resource × List String :=
  (⟨name, true⟩, ["Resource " ++ name ++ " opened"])

/-- The three failure kinds the spec names for ManagedResource. -/
inductive ErrKind where
  | resourceClosed
  | resourceFaulty
  | closeFailed
deriving DecidableEq, Repr

/-- The exact `CustomResourceException` the code constructs for each failure
kind (src/main.cpp lines 60, 63, 73): each is built by the one-argument
constructor from the concatenated message. -/
def mkResourceError : ErrKind → String → CppExc
  | .resourceClosed, n => CustomResourceException.make ("Resource " ++ n ++ " is closed")
  | .resourceFaulty, n => CustomResourceException.make ("Resource " ++ n ++ " is faulty")
  | .closeFailed, n => CustomResourceException.make ("Failed to close resource " ++ n)

/-- Method `performOperation()` (src/main.cpp lines 58-66): throws the
"is closed" exception when `!is_open_`, otherwise throws the "is faulty"
exception when `name_ == "faulty"`, otherwise prints the operation line. The
body assigns to no data member, so the returned object is the receiver. -/
def Resource.performOperation (r : Resource) : Resource × List String × Option CppExc :=
  if r.is_open = false then
    (r, [], some (mkResourceError .resourceClosed r.name))
  else if r.name = "faulty" then
    (r, [], some (mkResourceError .resourceFaulty r.name))
  else
    (r, ["Operation performed on resource " ++ r.name], none)

/-- Method `close()` (src/main.cpp lines 68-76): when `is_open_`, it first
sets `is_open_ = false`, then prints the "closed" line, and only then — when
`name_ == "failing"` — throws the "Failed to close" exception; when already
closed it does nothing. -/
def Resource.close (r : Resource) : Resource × List String × Option CppExc :=
  if r.is_open then
    if r.name = "failing" then
      ({ r with is_open := false }, ["Resource " ++ r.name ++ " closed"],
        some (mkResourceError .closeFailed r.name))
    else
      ({ r with is_open := false }, ["Resource " ++ r.name ++ " closed"], none)
  else
    (r, [], none)

/-- Destructor `~Resource()` (src/main.cpp lines 31-37): calls `close()` in a
try block; a thrown `CustomResourceException` is caught and its `what()` is
written to `std::cerr`; an exception of any other type would escape the catch
clause. The result pairs the `std::cout` lines with the `std::cerr` lines, and
is `.error` exactly when an exception propagates out of the destructor. -/
def Resource.destroy (r : Resource) : Except CppExc (List String × List String) :=
  match r.close with
  | (_, notes, none) => .ok (notes, [])
  | (_, notes, some e) =>
    match e with
    | .customResource m n =>
        .ok (notes, ["Destructor caught exception: " ++ (CppExc.customResource m n).what])
    | other => .error other

/-- Move constructor `Resource(Resource&& other)` (src/main.cpp lines 44-47):
the new object takes `other`'s name and open flag; `other.is_open_` is set to
false, and `other.name_` is left moved-from (valid but unspecified; empty with
the mainstream `std::string` implementations — no claim below depends on its
content). Returns (new object, source after the move). -/
def Resource.moveConstruct (other : Resource) : Resource × Resource :=
  (⟨other.name, other.is_open⟩, ⟨"", false⟩)

/-- Move assignment `operator=(Resource&& other)` between distinct objects
(src/main.cpp lines 49-56): the destination takes `other`'s name and open
flag, and `other` is inerted exactly as in the move constructor. (The
`this != &other` guard makes a self-move a no-op; the claims below are about
transfers to a new owner, where the objects are distinct.) Returns
(destination after, source after). -/
def Resource.moveAssign (dst other : Resource) : Resource × Resource :=
  match dst with
  | _ => (⟨other.name, other.is_open⟩, ⟨"", false⟩)

/-- Operations a ManagedResource can undergo after construction, acting on the
resource identity: `perform` invokes `performOperation()`, `doClose` invokes
`close()`, and `move` transfers the resource to a new owner (the resource
continues as the move destination). -/
inductive ResOp where
  | perform
  | doClose
  | move
deriving DecidableEq, Repr

/-- State of the resource identity after one operation. A throwing operation
leaves the object in the state recorded by the first component. -/
def applyOp (op : ResOp) (r : Resource) : Resource :=
  match op with
  | .perform => (r.performOperation).1
  | .doClose => (r.close).1
  | .move => (Resource.moveConstruct r).1

/-- State of the resource identity after a sequence of operations. -/
def runOps (ops : List ResOp) (r : Resource) : Resource :=
  ops.foldl (fun s o => applyOp o s) r

/-- Once the open flag is false, no single operation makes it true again. -/
theorem applyOp_preserves_closed (op : ResOp) (r : Resource) (h : r.is_open = false) :
    (applyOp op r).is_open = false := by
  cases op <;>
    simp [applyOp, Resource.performOperation, Resource.close, Resource.moveConstruct, h]

/-- C1: the claim states that wrapping an error whose message is m via the
two-argument `CustomResourceException` constructor and then reading the
wrapped cause's message yields m. The constructor instead stores a sliced
`std::exception` copy of the cause, so at the spec's own example input —
wrapping a `std::runtime_error("Original error")` inside "Wrapper error" —
reading `nested()->what()` yields the base-class default string, which differs
from "Original error"; indeed the nested message is the same for every
original message m, so it cannot reproduce m. -/
theorem c1_nested_cause_message_is_lost :
    (demonstrateNestedExceptions.nested).map CppExc.what = some "std::exception" ∧
    (demonstrateNestedExceptions.nested).map CppExc.what ≠ some "Original error" ∧
    (∀ m : String,
      ((CustomResourceException.makeWithNested "Wrapper error"
          (.stdRuntimeError m)).nested).map CppExc.what = some "std::exception") := by
  refine ⟨rfl, by decide, fun m => rfl⟩

/-- C2: for every Resource still open at scope exit, the destructor performs
the close, producing exactly one close notification on stdout; when the name
is "failing" the CloseFailed exception raised by that close is caught inside
the destructor and written only to the stderr diagnostic sink, and for any
name the destructor returns normally (`.ok`), so no failure propagates out of
the scope-exit path. -/
theorem c2_destructor_closes_once_and_absorbs_failure (r : Resource)
    (h : r.is_open = true) :
    r.destroy = .ok (["Resource " ++ r.name ++ " closed"],
      if r.name = "failing"
      then ["Destructor caught exception: Failed to close resource " ++ r.name]
      else []) := by
  by_cases hn : r.name = "failing" <;>
    simp [Resource.destroy, Resource.close, mkResourceError, CustomResourceException.make,
      CppExc.what, h, hn]

/-- C2 witness: the destructor of the open resource named "failing" emits one
close notification and routes the close failure to the diagnostic sink. -/
theorem c2_witness :
    (Resource.mk "failing" true).destroy =
      .ok (["Resource " ++ "failing" ++ " closed"],
        if "failing" = "failing"
        then ["Destructor caught exception: Failed to close resource " ++ "failing"]
        else []) :=
  c2_destructor_closes_once_and_absorbs_failure (Resource.mk "failing" true) rfl

/-- C3: closing an open resource always leaves it closed and emits the one
close notification, with the state flip and the notification recorded even on
the failing path; the failure is CloseFailed exactly when the name is
"failing", and no failure otherwise. -/
theorem c3_close_flips_state_before_failure (r : Resource) (h : r.is_open = true) :
    (r.close).1 = { r with is_open := false } ∧
    (r.close).2.1 = ["Resource " ++ r.name ++ " closed"] ∧
    (r.close).2.2 = (if r.name = "failing"
      then some (mkResourceError .closeFailed r.name) else none) := by
  by_cases hn : r.name = "failing" <;> simp [Resource.close, h, hn]

/-- C3 witness: closing the open resource named "failing" leaves it closed,
emits the close notification, and reports CloseFailed. -/
theorem c3_witness :
    ((Resource.mk "failing" true).close).1 = { Resource.mk "failing" true with is_open := false } ∧
    ((Resource.mk "failing" true).close).2.1 = ["Resource " ++ "failing" ++ " closed"] ∧
    ((Resource.mk "failing" true).close).2.2 = (if "failing" = "failing"
      then some (mkResourceError .closeFailed "failing") else none) :=
  c3_close_flips_state_before_failure (Resource.mk "failing" true) rfl

/-- C4: close() is idempotent. On a resource already closed it is a complete
no-op — no state change, no notification, no failure, whatever the name — and
in particular after one close() of an open resource every further close() is
such a no-op: no second notification and no second failure. -/
theorem c4_close_idempotent (s r : Resource) (hs : s.is_open = false)
    (hr : r.is_open = true) :
    s.close = (s, [], none) ∧ ((r.close).1).close = ((r.close).1, [], none) := by
  constructor
  · simp [Resource.close, hs]
  · by_cases hn : r.name = "failing" <;> simp [Resource.close, hr, hn]

/-- C4 witness: a closed "failing" resource is untouched by close(), and a
second close() after closing an open "failing" resource is a no-op. -/
theorem c4_witness :
    (Resource.mk "failing" false).close = (Resource.mk "failing" false, [], none) ∧
    (((Resource.mk "failing" true).close).1).close =
      (((Resource.mk "failing" true).close).1, [], none) :=
  c4_close_idempotent (Resource.mk "failing" false) (Resource.mk "failing" true) rfl rfl

/-- C5: on every closed resource, performOperation() fails with the
ResourceClosed error, whatever the name, and changes nothing and prints
nothing. -/
theorem c5_operation_on_closed_fails (r : Resource) (h : r.is_open = false) :
    r.performOperation = (r, [], some (mkResourceError .resourceClosed r.name)) := by
  simp [Resource.performOperation, h]

/-- C5 witness: performOperation() on the closed resource named "faulty" fails
with ResourceClosed, not ResourceFaulty. -/
theorem c5_witness :
    (Resource.mk "faulty" false).performOperation =
      (Resource.mk "faulty" false, [], some (mkResourceError .resourceClosed "faulty")) :=
  c5_operation_on_closed_fails (Resource.mk "faulty" false) rfl

/-- C6: on every open resource, performOperation() fails with ResourceFaulty
when the name is the sentinel "faulty", and for any other name it succeeds,
emits the one "operation performed" notification, and leaves the resource
unchanged. -/
theorem c6_operation_on_open (r : Resource) (h : r.is_open = true) :
    r.performOperation =
      (if r.name = "faulty"
       then (r, [], some (mkResourceError .resourceFaulty r.name))
       else (r, ["Operation performed on resource " ++ r.name], none)) := by
  by_cases hn : r.name = "faulty" <;> simp [Resource.performOperation, h, hn]

/-- C6 witness: performOperation() on the open resource named "faulty" fails
with ResourceFaulty. -/
theorem c6_witness :
    (Resource.mk "faulty" true).performOperation =
      (if "faulty" = "faulty"
       then (Resource.mk "faulty" true, [], some (mkResourceError .resourceFaulty "faulty"))
       else (Resource.mk "faulty" true, ["Operation performed on resource " ++ "faulty"], none)) :=
  c6_operation_on_open (Resource.mk "faulty" true) rfl

/-- C7: a move — by move construction or by move assignment to a distinct
destination — gives the destination the source's name and Open/Closed flag,
and the source left behind is inert: its scope-exit destructor performs no
close, emits no notification and writes no diagnostic, so only the new owner
can trigger the automatic close for the transferred resource. -/
theorem c7_move_transfers_and_inerts_source (r dst : Resource) :
    ((r.moveConstruct).1.name = r.name ∧ (r.moveConstruct).1.is_open = r.is_open ∧
      ((r.moveConstruct).2).destroy = .ok ([], [])) ∧
    ((Resource.moveAssign dst r).1.name = r.name ∧
      (Resource.moveAssign dst r).1.is_open = r.is_open ∧
      ((Resource.moveAssign dst r).2).destroy = .ok ([], [])) := by
  refine ⟨⟨rfl, rfl, ?_⟩, ⟨rfl, rfl, ?_⟩⟩ <;>
    simp [Resource.moveConstruct, Resource.moveAssign, Resource.destroy, Resource.close]

/-- C8: the lifecycle is one-way. Starting from any resource whose open flag
is already false, no sequence of performOperation, close and ownership
transfers ever makes the resource open again; together with
applyOp_preserves_closed this says every transition on the open flag is
Open → Closed, never Closed → Open. -/
theorem c8_state_never_reopens (ops : List ResOp) (r : Resource)
    (h : r.is_open = false) : (runOps ops r).is_open = false := by
  induction ops generalizing r with
  | nil => simpa [runOps] using h
  | cons op rest ih =>
      have hstep := applyOp_preserves_closed op r h
      simpa [runOps, List.foldl_cons] using ih (applyOp op r) hstep

/-- C8 witness: a closed resource stays closed across an operation, a move and
a further close. -/
theorem c8_witness :
    (runOps [ResOp.perform, ResOp.move, ResOp.doClose] (Resource.mk "r1" false)).is_open
      = false :=
  c8_state_never_reopens [ResOp.perform, ResOp.move, ResOp.doClose]
    (Resource.mk "r1" false) rfl

/-- C9: the moved-from source of either move form is observably closed:
performOperation() on it fails with the ResourceClosed ("Resource ... is
closed") error — exactly the failure performOperation() produces on any
resource whose open flag is false. -/
theorem c9_moved_from_acts_closed (r dst : Resource) :
    ((r.moveConstruct).2).performOperation =
      ((r.moveConstruct).2, [],
        some (mkResourceError .resourceClosed ((r.moveConstruct).2).name)) ∧
    ((Resource.moveAssign dst r).2).performOperation =
      ((Resource.moveAssign dst r).2, [],
        some (mkResourceError .resourceClosed ((Resource.moveAssign dst r).2).name)) := by
  constructor <;>
    simp [Resource.moveConstruct, Resource.moveAssign, Resource.performOperation]

/-- C10: performOperation() never modifies the resource: on every resource —
whether it succeeds, fails with ResourceClosed, or fails with ResourceFaulty —
the object after the call, name and open flag included, is the receiver
itself. -/
theorem c10_performOperation_is_readonly (r : Resource) :
    (r.performOperation).1 = r := by
  by_cases h : r.is_open = false
  · simp [Resource.performOperation, h]
  · by_cases hn : r.name = "faulty" <;> simp [Resource.performOperation, h, hn]
